import Mathlib

/-!
Verification of the greedy geodesic follower
(`src/esp/nav/GreedyFollower.h`, class `GreedyGeodesicFollowerImpl`).

Only the header of the class is present in the repository snapshot, so the
data model (the `CODES` enum, `SixDofPose`, `TryStepResult`, the configuration
members with their defaults and `const` qualifiers, the scratch dummy nodes
and the action-history vectors) is embedded from the header, while the bodies
of the member functions (`nextActionAlong`, `nextBestPrimAlong`, `tryStep`,
`computeReward`, `isThrashing`, `findPath`, `reset`) are modelled from the
specification.  Machine floats are modelled as rationals; the external
pathfinder and the move functions are modelled as function-valued fields of
an `Env` record; the C++ in-place mutation of the agent node and of the
scratch dummy nodes is rendered as explicit state passing.
-/

namespace GreedyFollower

/-- The output codes of the follower, from the header's `enum class CODES`. -/
inductive CODES : Type where
  | ERROR : CODES
  | STOP : CODES
  | FORWARD : CODES
  | LEFT : CODES
  | RIGHT : CODES
deriving DecidableEq, Repr

/-- A 3-d vector (`vec3f`), components modelled as rationals. -/
structure Vec3 where
  x : ℚ
  y : ℚ
  z : ℚ
deriving DecidableEq, Repr

/-- A quaternion (`quatf`), components modelled as rationals. -/
structure Quatf where
  w : ℚ
  x : ℚ
  y : ℚ
  z : ℚ
deriving DecidableEq, Repr

/-- The header's `SixDofPose`: rotation plus translation. -/
structure SixDofPose where
  rotation : Quatf
  translation : Vec3
deriving DecidableEq, Repr

/-- The header's private `TryStepResult`: post-action geodesic distance to the
goal, post-action distance to the closest obstacle, and the collision flag. -/
structure TryStepResult where
  postGeodesicDistance : ℚ
  postDistanceToClosestObstacle : ℚ
  didCollide : Bool
deriving DecidableEq, Repr

/-- Modelled from the spec: the external capabilities the follower is
constructed with — the geodesic-distance oracle (`none` models the
*Unreachable* condition), the obstacle-distance query, and the three
action applicators, each returning the moved pose together with the
collision flag (`MoveFn` in the header). -/
structure Env where
  geoDist : Vec3 → Vec3 → Option ℚ
  obsDist : Vec3 → ℚ
  moveForward : SixDofPose → SixDofPose × Bool
  turnLeft : SixDofPose → SixDofPose × Bool
  turnRight : SixDofPose → SixDofPose × Bool

/-- The configuration surface, from the header's constructor parameters and
`const` members: the defaults `fixThrashing = true`, `thrashingThreshold = 16`
and `closeToObsThreshold_ = 0.2` are taken from the header. -/
structure Config where
  goalDist : ℚ
  forwardAmount : ℚ
  turnAmount : ℚ
  fixThrashing : Bool := true
  thrashingThreshold : Nat := 16
  closeToObsThreshold : ℚ := 1/5
deriving DecidableEq, Repr

/-- Modelled from the spec: the follower decision state machine
(`READY`, `FOLLOWING`, `STOPPED`, `ERRORED`); the member-function bodies
that drive it are absent from the snapshot. -/
inductive FollowerState : Type where
  | READY : FollowerState
  | FOLLOWING : FollowerState
  | STOPPED : FollowerState
  | ERRORED : FollowerState
deriving DecidableEq, Repr

/-- The four scratch poses of the header's dummy scene nodes
(`dummyNode_`, `leftDummyNode_`, `rightDummyNode_`, `tryStepDummyNode_`). -/
structure Scratch where
  dummyNode : SixDofPose
  leftDummyNode : SixDofPose
  rightDummyNode : SixDofPose
  tryStepDummyNode : SixDofPose
deriving DecidableEq, Repr

/-- The follower instance: configuration, external capabilities, decision
state, the two action-history vectors (`actions_`, `thrashingActions_`,
the latter kept newest first) and the scratch poses. -/
structure Follower where
  cfg : Config
  env : Env
  state : FollowerState
  actions : List CODES
  thrashingActions : List CODES
  scratch : Scratch

/-- Modelled from the spec: the obstacle-proximity penalty of the Reward
Scorer — below the close-to-obstacle threshold the score is penalised in
proportion to closeness (`computeReward`'s body is absent). -/
def obsPenalty (cfg : Config) (d : ℚ) : ℚ :=
  if d < cfg.closeToObsThreshold then cfg.closeToObsThreshold - d else 0

/-- Modelled from the spec: `computeReward` — a collided outcome scores
`⊥`, strictly below every non-colliding outcome; otherwise the score is
monotonically decreasing in the post-action geodesic distance, minus the
obstacle-proximity penalty. -/
def computeReward (cfg : Config) (r : TryStepResult) : WithBot ℚ :=
  if r.didCollide then ⊥
  else ((-r.postGeodesicDistance - obsPenalty cfg r.postDistanceToClosestObstacle : ℚ) : WithBot ℚ)

/-- Modelled from the spec: the score of a simulated candidate; an
*Unreachable* oracle result (`none`) disqualifies the candidate, which is
rendered as the bottom score. -/
def candidateScore (cfg : Config) : Option TryStepResult → WithBot ℚ
  | none => ⊥
  | some r => computeReward cfg r

/-- The action applicator selected by an action code; STOP and ERROR are
never simulated, so they select the identity move without collision. -/
def moveOf (env : Env) : CODES → SixDofPose → SixDofPose × Bool
  | CODES.FORWARD => env.moveForward
  | CODES.LEFT => env.turnLeft
  | CODES.RIGHT => env.turnRight
  | _ => fun p => (p, false)

/-- Modelled from the spec: `tryStep` — copy the current pose into the
candidate's scratch pose, invoke the action applicator on it, then query the
geodesic oracle and the obstacle-distance capability at the moved
translation.  Returns the moved scratch pose together with the result
(`none` when the oracle reports *Unreachable*). -/
def tryStep (env : Env) (act : CODES) (cur : SixDofPose) (goal : Vec3) :
    SixDofPose × Option TryStepResult :=
  let mv : SixDofPose × Bool := moveOf env act cur
  match env.geoDist mv.1.translation goal with
  | none => (mv.1, none)
  | some d => (mv.1, some ⟨d, env.obsDist mv.1.translation, mv.2⟩)

/-- Whether two codes are an opposite LEFT/RIGHT pair. -/
def oppositeTurn : CODES → CODES → Bool
  | CODES.LEFT, CODES.RIGHT => true
  | CODES.RIGHT, CODES.LEFT => true
  | _, _ => false

/-- A list consisting entirely of alternating LEFT/RIGHT actions. -/
def alternatingLR : List CODES → Bool
  | [] => true
  | [a] => a == CODES.LEFT || a == CODES.RIGHT
  | a :: b :: rest => oppositeTurn a b && alternatingLR (b :: rest)

/-- Modelled from the spec: `isThrashing` — the trailing window (the
`thrashingThreshold` most recent actions, newest first) exists and consists
entirely of alternating LEFT/RIGHT actions. -/
def isThrashing (cfg : Config) (hist : List CODES) : Bool :=
  decide (cfg.thrashingThreshold ≤ hist.length) &&
    alternatingLR (hist.take cfg.thrashingThreshold)

/-- Modelled from the spec: the selection rule of `nextBestPrimAlong` —
candidates are considered in the order FORWARD, LEFT, RIGHT and the
incumbent is replaced only by a strictly greater score, which realises the
deterministic tie-break priority FORWARD > LEFT > RIGHT. -/
def pickBest (sF sL sR : WithBot ℚ) : CODES :=
  let best1 : CODES × WithBot ℚ := (CODES.FORWARD, sF)
  let best2 : CODES × WithBot ℚ := if best1.2 < sL then (CODES.LEFT, sL) else best1
  if best2.2 < sR then CODES.RIGHT else best2.1

/-- The score of one candidate action of a follower at a pose. -/
def candScore (f : Follower) (act : CODES) (pose : SixDofPose) (goal : Vec3) : WithBot ℚ :=
  candidateScore f.cfg (tryStep f.env act pose goal).2

/-- Modelled from the spec: whether the remaining geodesic distance from the
pose to the goal is within the goal-distance threshold (an *Unreachable*
oracle result does not trigger the stop). -/
def withinGoal (f : Follower) (pose : SixDofPose) (goal : Vec3) : Bool :=
  match f.env.geoDist pose.translation goal with
  | none => false
  | some d => decide (d ≤ f.cfg.goalDist)

/-- Modelled from the spec: steps 2–6 of `nextActionAlong` — simulate the
three candidates into the scratch poses, transition to `ERRORED` with ERROR
when every candidate is disqualified (collision or *Unreachable*), otherwise
pick the best-scoring candidate, apply the thrashing override, append to the
histories and transition to `FOLLOWING`. -/
def decideAction (f : Follower) (pose : SixDofPose) (goal : Vec3) : CODES × Follower :=
  let sF := candScore f CODES.FORWARD pose goal
  let sL := candScore f CODES.LEFT pose goal
  let sR := candScore f CODES.RIGHT pose goal
  let scratch2 : Scratch :=
    ⟨(tryStep f.env CODES.FORWARD pose goal).1,
     (tryStep f.env CODES.LEFT pose goal).1,
     (tryStep f.env CODES.RIGHT pose goal).1,
     pose⟩
  if sF = ⊥ ∧ sL = ⊥ ∧ sR = ⊥ then
    (CODES.ERROR, { f with state := FollowerState.ERRORED, scratch := scratch2 })
  else
    let chosen :=
      if f.cfg.fixThrashing && isThrashing f.cfg f.thrashingActions then CODES.FORWARD
      else pickBest sF sL sR
    (chosen,
     { f with
        state := FollowerState.FOLLOWING,
        actions := f.actions ++ [chosen],
        thrashingActions := chosen :: f.thrashingActions,
        scratch := scratch2 })

/-- Modelled from the spec: `nextActionAlong` — transition to `STOPPED` with
STOP when the remaining geodesic distance is within the goal-distance
threshold, otherwise run the candidate decision. -/
def nextActionAlong (f : Follower) (pose : SixDofPose) (goal : Vec3) : CODES × Follower :=
  if withinGoal f pose goal then
    (CODES.STOP, { f with state := FollowerState.STOPPED })
  else
    decideAction f pose goal

/-- Modelled from the spec: `reset` — clear the action history and the
thrashing-detector state and return the state machine to `READY`;
configuration and external capabilities are untouched. -/
def reset (f : Follower) : Follower :=
  { f with state := FollowerState.READY, actions := [], thrashingActions := [] }

/-- The straight-line (Euclidean) distance between two points, with the
machine square root modelled by the rational square root. -/
def straightLineDist (a b : Vec3) : ℚ :=
  Rat.sqrt ((a.x - b.x) ^ 2 + (a.y - b.y) ^ 2 + (a.z - b.z) ^ 2)

/-- Modelled from the spec: the multiple used by the step budget of
`findPath`; the spec fixes only that the budget is a multiple of the
straight-line distance divided by the forward step length. -/
def budgetMultiplier : ℚ := 10

/-- Modelled from the spec: the number of movement actions `findPath` may
take — a multiple of the straight-line distance divided by the forward step
length. -/
def maxActions (cfg : Config) (start goal : Vec3) : Nat :=
  (budgetMultiplier * straightLineDist start goal / cfg.forwardAmount).ceil.toNat

/-- Modelled from the spec: the configured step budget bounding the length
of the sequence `findPath` returns (its movement actions plus the single
terminating STOP or ERROR code). -/
def stepBudget (cfg : Config) (start goal : Vec3) : Nat :=
  maxActions cfg start goal + 1

/-- Modelled from the spec: the `findPath` loop at a given fuel — drive the
decision procedure against the simulated pose, advance the pose through the
action applicator on movement actions, and stop on STOP or ERROR; exhausted
fuel (the step budget) terminates the sequence with ERROR. -/
def findPathAux (goal : Vec3) : Nat → Follower → SixDofPose → List CODES × Follower
  | 0, f, _ => ([CODES.ERROR], { f with state := FollowerState.ERRORED })
  | n + 1, f, pose =>
    match nextActionAlong f pose goal with
    | (CODES.STOP, f2) => ([CODES.STOP], f2)
    | (CODES.ERROR, f2) => ([CODES.ERROR], f2)
    | (act, f2) =>
      let stepped := (tryStep f2.env act pose goal).1
      let rest := findPathAux goal n f2 stepped
      (act :: rest.1, rest.2)

/-- Modelled from the spec: `findPath` — run the decision loop from the
start pose under the step budget. -/
def findPath (f : Follower) (start : SixDofPose) (goal : Vec3) : List CODES × Follower :=
  findPathAux goal (maxActions f.cfg start.translation goal) f start

/-- The externally observable part of a follower: everything except the
scratch poses. -/
def observe (f : Follower) : Config × FollowerState × List CODES × List CODES :=
  (f.cfg, f.state, f.actions, f.thrashingActions)

/-- The identity rotation, used by concrete test instances. -/
def qId : Quatf := ⟨1, 0, 0, 0⟩

/-- The origin, used by concrete test instances. -/
def vZero : Vec3 := ⟨0, 0, 0⟩

/-- A concrete pose at the origin. -/
def poseEx : SixDofPose := ⟨qId, vZero⟩

/-- Concrete scratch poses. -/
def scratchEx : Scratch := ⟨poseEx, poseEx, poseEx, poseEx⟩

/-- A concrete configuration using the header's defaults. -/
def cfgEx : Config := { goalDist := 1, forwardAmount := 1/4, turnAmount := 1/10 }

/-- An environment in which every point is geodesically at the goal. -/
def envNear : Env :=
  { geoDist := fun _ _ => some 0
    obsDist := fun _ => 1
    moveForward := fun p => (p, false)
    turnLeft := fun p => (p, false)
    turnRight := fun p => (p, false) }

/-- An environment in which every candidate action collides. -/
def envCollide : Env :=
  { geoDist := fun _ _ => some 10
    obsDist := fun _ => 1
    moveForward := fun p => (p, true)
    turnLeft := fun p => (p, true)
    turnRight := fun p => (p, true) }

/-- An environment in which no candidate collides and the goal stays far. -/
def envFree : Env :=
  { geoDist := fun _ _ => some 10
    obsDist := fun _ => 1
    moveForward := fun p => (p, false)
    turnLeft := fun p => (p, false)
    turnRight := fun p => (p, false) }

/-- An environment in which the LEFT candidate lands on a point the oracle
reports as *Unreachable*, while the others remain reachable. -/
def envLeftUnreachable : Env :=
  { geoDist := fun a _ => if a.x = 5 then none else some 10
    obsDist := fun _ => 1
    moveForward := fun p => (p, false)
    turnLeft := fun p => (⟨p.rotation, ⟨5, 0, 0⟩⟩, false)
    turnRight := fun p => (p, false) }

/-- A fresh follower over a given environment. -/
def followerOf (e : Env) : Follower :=
  { cfg := cfgEx, env := e, state := FollowerState.READY, actions := [],
    thrashingActions := [], scratch := scratchEx }

/-- A 16-action alternating LEFT/RIGHT history (the default thrashing
window length). -/
def thrashHist : List CODES :=
  [CODES.LEFT, CODES.RIGHT, CODES.LEFT, CODES.RIGHT,
   CODES.LEFT, CODES.RIGHT, CODES.LEFT, CODES.RIGHT,
   CODES.LEFT, CODES.RIGHT, CODES.LEFT, CODES.RIGHT,
   CODES.LEFT, CODES.RIGHT, CODES.LEFT, CODES.RIGHT]

/-- A follower that has been thrashing for a full window. -/
def followerThrash : Follower :=
  { followerOf envFree with thrashingActions := thrashHist }

section Lemmas

/-- A colliding candidate scores bottom. -/
lemma candScore_collide (f : Follower) (act : CODES) (pose : SixDofPose) (goal : Vec3)
    (h : (moveOf f.env act pose).2 = true) :
    candScore f act pose goal = ⊥ := by
  unfold candScore tryStep
  cases hg : f.env.geoDist (moveOf f.env act pose).1.translation goal <;>
    simp [candidateScore, computeReward, hg, h]

/-- The selection rule only ever returns a movement action. -/
lemma pickBest_ne_error (sF sL sR : WithBot ℚ) : pickBest sF sL sR ≠ CODES.ERROR := by
  unfold pickBest
  dsimp only
  split <;> (try split) <;> simp

end Lemmas

/-- C1: for every pose whose remaining geodesic distance to the goal is at
most the goal-distance threshold, `nextActionAlong` returns STOP and the
decision state becomes `STOPPED`. -/
theorem nextActionAlong_stop (f : Follower) (pose : SixDofPose) (goal : Vec3) (d : ℚ)
    (hd : f.env.geoDist pose.translation goal = some d)
    (hle : d ≤ f.cfg.goalDist) :
    (nextActionAlong f pose goal).1 = CODES.STOP ∧
      (nextActionAlong f pose goal).2.state = FollowerState.STOPPED := by
  have hW : withinGoal f pose goal = true := by
    simp [withinGoal, hd, hle]
  simp [nextActionAlong, hW]

/-- Witness for C1 at a concrete follower already at the goal. -/
theorem nextActionAlong_stop_witness :
    (nextActionAlong (followerOf envNear) poseEx vZero).1 = CODES.STOP ∧
      (nextActionAlong (followerOf envNear) poseEx vZero).2.state = FollowerState.STOPPED :=
  nextActionAlong_stop (followerOf envNear) poseEx vZero 0 rfl (by norm_num [followerOf, cfgEx])

/-- C2: if all three simulated candidate actions collide, `nextActionAlong`
returns ERROR and the decision state becomes `ERRORED`. -/
theorem nextActionAlong_allCollide (f : Follower) (pose : SixDofPose) (goal : Vec3)
    (hW : withinGoal f pose goal = false)
    (hF : (f.env.moveForward pose).2 = true)
    (hL : (f.env.turnLeft pose).2 = true)
    (hR : (f.env.turnRight pose).2 = true) :
    (nextActionAlong f pose goal).1 = CODES.ERROR ∧
      (nextActionAlong f pose goal).2.state = FollowerState.ERRORED := by
  have hsF : candScore f CODES.FORWARD pose goal = ⊥ := candScore_collide f _ pose goal hF
  have hsL : candScore f CODES.LEFT pose goal = ⊥ := candScore_collide f _ pose goal hL
  have hsR : candScore f CODES.RIGHT pose goal = ⊥ := candScore_collide f _ pose goal hR
  simp [nextActionAlong, hW, decideAction, hsF, hsL, hsR]

/-- Witness for C2 at a concrete follower all of whose moves collide. -/
theorem nextActionAlong_allCollide_witness :
    (nextActionAlong (followerOf envCollide) poseEx vZero).1 = CODES.ERROR ∧
      (nextActionAlong (followerOf envCollide) poseEx vZero).2.state = FollowerState.ERRORED :=
  nextActionAlong_allCollide (followerOf envCollide) poseEx vZero (by decide) rfl rfl rfl

/-- C3: the reward score is strictly ordered — a collided result scores
strictly below every non-colliding result, and between two non-colliding
results with equal post-action obstacle distance the one with smaller
post-action geodesic distance scores strictly higher. -/
theorem computeReward_order (cfg : Config) (r1 r2 r3 r4 : TryStepResult)
    (h1 : r1.didCollide = true) (h2 : r2.didCollide = false)
    (h3 : r3.didCollide = false) (h4 : r4.didCollide = false)
    (hobs : r3.postDistanceToClosestObstacle = r4.postDistanceToClosestObstacle)
    (hgeo : r3.postGeodesicDistance < r4.postGeodesicDistance) :
    computeReward cfg r1 < computeReward cfg r2 ∧
      computeReward cfg r4 < computeReward cfg r3 := by
  constructor
  · simp only [computeReward, h1, h2, if_true, if_false, Bool.false_eq_true]
    exact WithBot.bot_lt_coe _
  · simp only [computeReward, h3, h4, Bool.false_eq_true, if_false]
    have h : (-r4.postGeodesicDistance - obsPenalty cfg r4.postDistanceToClosestObstacle : ℚ) <
        -r3.postGeodesicDistance - obsPenalty cfg r3.postDistanceToClosestObstacle := by
      rw [hobs]
      linarith
    exact_mod_cast h

/-- Witness for C3 at concrete step results. -/
theorem computeReward_order_witness :
    computeReward cfgEx ⟨5, 1, true⟩ < computeReward cfgEx ⟨5, 1, false⟩ ∧
      computeReward cfgEx ⟨4, 1, false⟩ < computeReward cfgEx ⟨3, 1, false⟩ :=
  computeReward_order cfgEx ⟨5, 1, true⟩ ⟨5, 1, false⟩ ⟨3, 1, false⟩ ⟨4, 1, false⟩
    rfl rfl rfl rfl rfl (by norm_num)

/-- C4: candidate selection tie-breaking is deterministic with priority
FORWARD > LEFT > RIGHT — when FORWARD and LEFT score identically LEFT is
never chosen (and FORWARD is chosen whenever RIGHT does not strictly beat
them), and when LEFT and RIGHT score identically RIGHT is never chosen (and
LEFT is chosen whenever it strictly beats FORWARD). -/
theorem pickBest_tiebreak (sF sL sR tF tL tR : WithBot ℚ)
    (hFL : sF = sL) (hLR : tL = tR) :
    pickBest sF sL sR ≠ CODES.LEFT ∧
      (sR ≤ sF → pickBest sF sL sR = CODES.FORWARD) ∧
      pickBest tF tL tR ≠ CODES.RIGHT ∧
      (tF < tL → pickBest tF tL tR = CODES.LEFT) := by
  subst hFL
  subst hLR
  refine ⟨?_, ?_, ?_, ?_⟩
  · unfold pickBest
    dsimp only
    rw [if_neg (lt_irrefl sF)]
    dsimp only
    split <;> simp
  · intro hRF
    unfold pickBest
    dsimp only
    rw [if_neg (lt_irrefl sF)]
    dsimp only
    rw [if_neg (not_lt.mpr hRF)]
  · by_cases h : tF < tL
    · unfold pickBest
      dsimp only
      rw [if_pos h]
      dsimp only
      rw [if_neg (lt_irrefl tL)]
      simp
    · unfold pickBest
      dsimp only
      rw [if_neg h]
      dsimp only
      rw [if_neg h]
      simp
  · intro hF
    unfold pickBest
    dsimp only
    rw [if_pos hF]
    dsimp only
    rw [if_neg (lt_irrefl tL)]

/-- Witness for C4 at concrete scores. -/
theorem pickBest_tiebreak_witness :
    pickBest (0 : WithBot ℚ) 0 0 ≠ CODES.LEFT ∧
      ((0 : WithBot ℚ) ≤ 0 → pickBest (0 : WithBot ℚ) 0 0 = CODES.FORWARD) ∧
      pickBest (0 : WithBot ℚ) 1 1 ≠ CODES.RIGHT ∧
      ((0 : WithBot ℚ) < 1 → pickBest (0 : WithBot ℚ) 1 1 = CODES.LEFT) :=
  pickBest_tiebreak 0 0 0 0 1 1 rfl rfl

/-- C5: with thrashing-correction enabled and a trailing history window of
the configured length consisting entirely of alternating LEFT/RIGHT
actions, the decision (when it is neither the STOP nor the all-disqualified
ERROR case) is overridden to FORWARD, whatever the candidate scores are. -/
theorem thrashing_override (f : Follower) (pose : SixDofPose) (goal : Vec3)
    (hfix : f.cfg.fixThrashing = true)
    (hlen : f.cfg.thrashingThreshold ≤ f.thrashingActions.length)
    (halt : alternatingLR (f.thrashingActions.take f.cfg.thrashingThreshold) = true)
    (hW : withinGoal f pose goal = false)
    (hq : ¬(candScore f CODES.FORWARD pose goal = ⊥ ∧ candScore f CODES.LEFT pose goal = ⊥ ∧
        candScore f CODES.RIGHT pose goal = ⊥)) :
    (nextActionAlong f pose goal).1 = CODES.FORWARD := by
  have hthr : isThrashing f.cfg f.thrashingActions = true := by
    simp [isThrashing, hlen, halt]
  simp [nextActionAlong, hW, decideAction, hq, hthr, hfix]

/-- Witness for C5 at a concrete follower with a full alternating window. -/
theorem thrashing_override_witness :
    (nextActionAlong followerThrash poseEx vZero).1 = CODES.FORWARD :=
  thrashing_override followerThrash poseEx vZero rfl (by decide) (by decide) (by decide)
    (by decide)

/-- C8: an *Unreachable* oracle answer gives a candidate the disqualifying
bottom score, and the decision is ERROR exactly when every candidate is
disqualified — a single candidate's unreachability is never fatal. -/
theorem unreachable_disqualifies (f : Follower) (pose : SixDofPose) (goal : Vec3)
    (hW : withinGoal f pose goal = false) :
    (∀ act : CODES, (tryStep f.env act pose goal).2 = none →
        candScore f act pose goal = ⊥) ∧
      ((nextActionAlong f pose goal).1 = CODES.ERROR ↔
        candScore f CODES.FORWARD pose goal = ⊥ ∧ candScore f CODES.LEFT pose goal = ⊥ ∧
          candScore f CODES.RIGHT pose goal = ⊥) := by
  refine ⟨fun act hnone => by simp [candScore, hnone, candidateScore], ?_⟩
  by_cases hc : candScore f CODES.FORWARD pose goal = ⊥ ∧ candScore f CODES.LEFT pose goal = ⊥ ∧
      candScore f CODES.RIGHT pose goal = ⊥
  · simp [nextActionAlong, hW, decideAction, hc]
  · have hne : (nextActionAlong f pose goal).1 ≠ CODES.ERROR := by
      simp only [nextActionAlong, hW, Bool.false_eq_true, if_false, decideAction]
      rw [if_neg hc]
      dsimp only
      split
      · simp
      · exact pickBest_ne_error _ _ _
    simp [hne, hc]

/-- Witness for C8 at a concrete follower whose LEFT candidate is
unreachable while the others stay viable. -/
theorem unreachable_disqualifies_witness :
    (∀ act : CODES, (tryStep (followerOf envLeftUnreachable).env act poseEx vZero).2 = none →
        candScore (followerOf envLeftUnreachable) act poseEx vZero = ⊥) ∧
      ((nextActionAlong (followerOf envLeftUnreachable) poseEx vZero).1 = CODES.ERROR ↔
        candScore (followerOf envLeftUnreachable) CODES.FORWARD poseEx vZero = ⊥ ∧
          candScore (followerOf envLeftUnreachable) CODES.LEFT poseEx vZero = ⊥ ∧
          candScore (followerOf envLeftUnreachable) CODES.RIGHT poseEx vZero = ⊥) :=
  unreachable_disqualifies (followerOf envLeftUnreachable) poseEx vZero (by decide)

section LoopLemmas

/-- The `findPath` loop emits at most one action per unit of fuel plus the
terminating code. -/
lemma findPathAux_len (goal : Vec3) (n : Nat) :
    ∀ (f : Follower) (pose : SixDofPose),
      (findPathAux goal n f pose).1.length ≤ n + 1 := by
  induction n with
  | zero => intro f pose; simp [findPathAux]
  | succ n ih =>
    intro f pose
    rcases hna : nextActionAlong f pose goal with ⟨a, f2⟩
    cases a with
    | ERROR => simp [findPathAux, hna]
    | STOP => simp [findPathAux, hna]
    | FORWARD =>
      have h := ih f2 (tryStep f2.env CODES.FORWARD pose goal).1
      simp only [findPathAux, hna, List.length_cons]
      omega
    | LEFT =>
      have h := ih f2 (tryStep f2.env CODES.LEFT pose goal).1
      simp only [findPathAux, hna, List.length_cons]
      omega
    | RIGHT =>
      have h := ih f2 (tryStep f2.env CODES.RIGHT pose goal).1
      simp only [findPathAux, hna, List.length_cons]
      omega

/-- The `findPath` loop never returns an empty sequence. -/
lemma findPathAux_ne_nil (goal : Vec3) (n : Nat) :
    ∀ (f : Follower) (pose : SixDofPose), (findPathAux goal n f pose).1 ≠ [] := by
  cases n with
  | zero => intro f pose; simp [findPathAux]
  | succ n =>
    intro f pose
    rcases hna : nextActionAlong f pose goal with ⟨a, f2⟩
    cases a <;> simp [findPathAux, hna]

/-- The `findPath` loop always terminates its sequence with STOP or ERROR. -/
lemma findPathAux_last (goal : Vec3) (n : Nat) :
    ∀ (f : Follower) (pose : SixDofPose),
      (findPathAux goal n f pose).1.getLast? = some CODES.STOP ∨
        (findPathAux goal n f pose).1.getLast? = some CODES.ERROR := by
  induction n with
  | zero => intro f pose; simp [findPathAux]
  | succ n ih =>
    intro f pose
    rcases hna : nextActionAlong f pose goal with ⟨a, f2⟩
    have step : ∀ act : CODES,
        (act :: (findPathAux goal n f2 (tryStep f2.env act pose goal).1).1).getLast? =
            some CODES.STOP ∨
          (act :: (findPathAux goal n f2 (tryStep f2.env act pose goal).1).1).getLast? =
            some CODES.ERROR := by
      intro act
      rcases hr : (findPathAux goal n f2 (tryStep f2.env act pose goal).1).1 with _ | ⟨x, xs⟩
      · exact absurd hr (findPathAux_ne_nil goal n f2 _)
      · have hl := ih f2 (tryStep f2.env act pose goal).1
        rw [hr] at hl
        simpa [List.getLast?_cons_cons] using hl
    cases a <;> simp only [findPathAux, hna] <;>
      [simp; simp; exact step CODES.FORWARD; exact step CODES.LEFT; exact step CODES.RIGHT]

end LoopLemmas

/-- C6: `findPath` always returns a finite sequence of length at most the
configured step budget, terminated by STOP or ERROR; an exhausted budget
terminates the sequence with ERROR. -/
theorem findPath_budget (f : Follower) (start : SixDofPose) (goal : Vec3) :
    (findPath f start goal).1.length ≤ stepBudget f.cfg start.translation goal ∧
      ((findPath f start goal).1.getLast? = some CODES.STOP ∨
        (findPath f start goal).1.getLast? = some CODES.ERROR) ∧
      (∀ (f2 : Follower) (pose : SixDofPose), (findPathAux goal 0 f2 pose).1 = [CODES.ERROR]) := by
  refine ⟨?_, findPathAux_last goal _ f start, fun f2 pose => rfl⟩
  have h := findPathAux_len goal (maxActions f.cfg start.translation goal) f start
  simpa [findPath, stepBudget] using h

/-- C7: the candidate simulation is isolated — the action returned by
`nextActionAlong` and every externally observable part of the resulting
follower (configuration, decision state, histories) are independent of the
contents of the scratch poses, which are reinitialised from the current
pose before being read; the current pose itself is only read. -/
theorem tryStep_scratch_isolated (f : Follower) (s1 s2 : Scratch)
    (pose : SixDofPose) (goal : Vec3) :
    (nextActionAlong { f with scratch := s1 } pose goal).1 =
        (nextActionAlong { f with scratch := s2 } pose goal).1 ∧
      observe (nextActionAlong { f with scratch := s1 } pose goal).2 =
        observe (nextActionAlong { f with scratch := s2 } pose goal).2 := by
  unfold nextActionAlong decideAction withinGoal candScore observe
  dsimp only
  constructor <;> (split <;> [rfl; (split <;> rfl)])

/-- C9: after `reset` the decision state is `READY`, the thrashing detector
reports false whatever the prior history was, and the configuration and the
environment references are unchanged. -/
theorem reset_spec (f : Follower) (h : 1 ≤ f.cfg.thrashingThreshold) :
    (reset f).state = FollowerState.READY ∧
      isThrashing (reset f).cfg (reset f).thrashingActions = false ∧
      (reset f).cfg = f.cfg ∧ (reset f).env = f.env := by
  refine ⟨rfl, ?_, rfl, rfl⟩
  simp only [reset, isThrashing, List.length_nil, List.take_nil, alternatingLR,
    Bool.and_eq_false_imp, decide_eq_true_eq]
  omega

/-- Witness for C9 at a concrete follower with a nonempty history. -/
theorem reset_spec_witness :
    (reset followerThrash).state = FollowerState.READY ∧
      isThrashing (reset followerThrash).cfg (reset followerThrash).thrashingActions = false ∧
      (reset followerThrash).cfg = followerThrash.cfg ∧
      (reset followerThrash).env = followerThrash.env :=
  reset_spec followerThrash (by decide)

/-- The single-step decision never changes the configuration. -/
lemma nextActionAlong_cfg (f : Follower) (pose : SixDofPose) (goal : Vec3) :
    (nextActionAlong f pose goal).2.cfg = f.cfg := by
  unfold nextActionAlong decideAction
  dsimp only
  split <;> [rfl; (split <;> rfl)]

/-- The `findPath` loop never changes the configuration. -/
lemma findPathAux_cfg (goal : Vec3) (n : Nat) :
    ∀ (f : Follower) (pose : SixDofPose), (findPathAux goal n f pose).2.cfg = f.cfg := by
  induction n with
  | zero => intro f pose; rfl
  | succ n ih =>
    intro f pose
    rcases hna : nextActionAlong f pose goal with ⟨a, f2⟩
    have hf2 : f2.cfg = f.cfg := by
      have h := nextActionAlong_cfg f pose goal
      rw [hna] at h
      exact h
    cases a <;> simp only [findPathAux, hna] <;>
      [exact hf2; exact hf2; skip; skip; skip] <;>
      (rw [ih]; exact hf2)

/-- C10: the whole configuration surface is immutable — no operation of the
follower changes it — and the header's defaults hold: thrashing correction
defaults to on, the thrashing window defaults to 16 and the
close-to-obstacle threshold is 0.2. -/
theorem config_immutable (f : Follower) (pose start : SixDofPose) (goal : Vec3)
    (gd fa ta : ℚ) :
    (nextActionAlong f pose goal).2.cfg = f.cfg ∧
      (reset f).cfg = f.cfg ∧
      (findPath f start goal).2.cfg = f.cfg ∧
      ({ goalDist := gd, forwardAmount := fa, turnAmount := ta : Config }).fixThrashing = true ∧
      ({ goalDist := gd, forwardAmount := fa, turnAmount := ta : Config }).thrashingThreshold = 16 ∧
      ({ goalDist := gd, forwardAmount := fa, turnAmount := ta : Config }).closeToObsThreshold
        = 1/5 :=
  ⟨nextActionAlong_cfg f pose goal, rfl, findPathAux_cfg goal _ f start, rfl, rfl, rfl⟩

end GreedyFollower
